import Mathlib

/-!
Shallow embedding of `crates/picker/src/picker.rs` (the `Picker` widget).

The picker owns a delegate holding the match set and selection cursor, an
element container (`List` or `UniformList`), at most one pending asynchronous
match update, and an optional deferred-confirm flag.  Side effects on external
collaborators (the delegate's hooks, the scroll handle, redraw notification)
are recorded as an event trace appended to the state, so that ordering claims
become statements about lists.  Dropping a `gpui::Task` cancels it; the model
reflects this by letting a completion step fire only for the task id that is
still the current pending update.
-/

namespace Picker

/-- Externally visible side effects performed by the picker, in program order. -/
inductive PickerEvent where
  /-- `self.delegate.update_matches(query, cx)`: start the async recomputation. -/
  | delegateUpdateMatches (query : String)
  /-- `self.delegate.finalize_update_matches(query, duration, cx)`. -/
  | delegateFinalize (query : String) (maxWaitMs : Nat)
  /-- `self.delegate.confirm(secondary, cx)`. -/
  | delegateConfirm (secondary : Bool)
  /-- `self.delegate.toggle_include_ignored()`. -/
  | delegateToggleIncludeIgnored
  /-- `self.delegate.set_selected_index(ix, cx)`. -/
  | setSelectedIndex (ix : Nat)
  /-- `Picker::scroll_to_item_index(ix)` on either container kind. -/
  | scrollToItem (ix : Nat)
  /-- `state.reset(count)` on the `List` container. -/
  | listReset (count : Nat)
  /-- a `PendingUpdateMatches` value is dropped, cancelling its tasks. -/
  | dropPendingTask (taskId : Nat)
  /-- `cx.spawn(...)`: the supervising task of a new `PendingUpdateMatches`. -/
  | spawnPendingTask (taskId : Nat)
  /-- `cx.notify()`. -/
  | notify
  deriving DecidableEq, Repr

/-- The delegate-owned state the picker shell reads: `match_count()`,
`selected_index()`, the include-ignored search option and whether that
option is supported (`supported_search_options().include_ignored`). -/
structure DelegateState where
  matchCount : Nat
  selectedIndex : Nat
  includeIgnored : Bool
  supportedIncludeIgnored : Bool
  deriving DecidableEq, Repr

/-- `ContainerKind` from the source: chosen at construction, never changed. -/
inductive ContainerKind where
  | List
  | UniformList
  deriving DecidableEq, Repr

/-- The picker's own mutable state.  `pendingUpdate` holds the generation id
of the current `PendingUpdateMatches`' supervising task (`Option` in the
source, hence at most one); `nextTaskId` is the fresh-id counter used when a
new supervising task is spawned; `events` is the accumulated side-effect
trace. -/
structure PickerState where
  delegate : DelegateState
  container : ContainerKind
  listItemCount : Nat
  pendingUpdate : Option Nat
  confirmOnUpdate : Option Bool
  nextTaskId : Nat
  queryText : String
  events : List PickerEvent
  deriving DecidableEq, Repr

/-- Append one side-effect event to the trace. -/
def emit (e : PickerEvent) (s : PickerState) : PickerState :=
  { s with events := s.events ++ [e] }

/-- `Picker::query`: the query box text (empty for an empty head). -/
def query (s : PickerState) : String :=
  s.queryText

/-- `PickerDelegate::set_selected_index`: persists the new selection. -/
def set_selected_index (s : PickerState) (ix : Nat) : PickerState :=
  emit (.setSelectedIndex ix) { s with delegate := { s.delegate with selectedIndex := ix } }

/-- `Picker::scroll_to_item_index`: request scroll-into-view on the active
container. -/
def scroll_to_item_index (s : PickerState) (ix : Nat) : PickerState :=
  emit (.scrollToItem ix) s

/-- `Picker::select_next` (lines 223-232). -/
def select_next (s : PickerState) : PickerState :=
  let count := s.delegate.matchCount
  if count > 0 then
    let index := s.delegate.selectedIndex
    let ix := if index = count - 1 then 0 else index + 1
    let s := set_selected_index s ix
    let s := scroll_to_item_index s ix
    emit .notify s
  else s

/-- `Picker::select_prev` (lines 234-243). -/
def select_prev (s : PickerState) : PickerState :=
  let count := s.delegate.matchCount
  if count > 0 then
    let index := s.delegate.selectedIndex
    let ix := if index = 0 then count - 1 else index - 1
    let s := set_selected_index s ix
    let s := scroll_to_item_index s ix
    emit .notify s
  else s

/-- `Picker::select_first` (lines 245-252). -/
def select_first (s : PickerState) : PickerState :=
  let count := s.delegate.matchCount
  if count > 0 then
    let s := set_selected_index s 0
    let s := scroll_to_item_index s 0
    emit .notify s
  else s

/-- `Picker::select_last` (lines 254-261). -/
def select_last (s : PickerState) : PickerState :=
  let count := s.delegate.matchCount
  if count > 0 then
    let s := set_selected_index s (count - 1)
    let s := scroll_to_item_index s (count - 1)
    emit .notify s
  else s

/-- `Picker::cycle_selection` (lines 263-270).  Note: the source has no
`count > 0` guard here. -/
def cycle_selection (s : PickerState) : PickerState :=
  let count := s.delegate.matchCount
  let index := s.delegate.selectedIndex
  let new_index := if index + 1 = count then 0 else index + 1
  let s := set_selected_index s new_index
  let s := scroll_to_item_index s new_index
  emit .notify s

/-- `Picker::matches_updated` (lines 371-383): reset the `List` container's
item count, scroll to the delegate's selected index, clear (drop) any pending
update, consume a recorded deferred confirm, notify. -/
def matches_updated (s : PickerState) : PickerState :=
  let s :=
    match s.container with
    | ContainerKind.List =>
        emit (.listReset s.delegate.matchCount) { s with listItemCount := s.delegate.matchCount }
    | ContainerKind.UniformList => s
  let index := s.delegate.selectedIndex
  let s := scroll_to_item_index s index
  let s :=
    match s.pendingUpdate with
    | some k => emit (.dropPendingTask k) { s with pendingUpdate := none }
    | none => { s with pendingUpdate := none }
  let s :=
    match s.confirmOnUpdate with
    | some secondary => emit (.delegateConfirm secondary) { s with confirmOnUpdate := none }
    | none => s
  emit .notify s

/-- `Picker::update_matches` (lines 342-369): call the delegate's
`update_matches` (starting the async computation), run one synchronous
`matches_updated` pass, then install a fresh `PendingUpdateMatches` whose
supervising task will run `matches_updated` again when the delegate's
computation completes. -/
def update_matches (s : PickerState) (q : String) : PickerState :=
  let s := emit (.delegateUpdateMatches q) s
  let s := matches_updated s
  let tid := s.nextTaskId
  emit (.spawnPendingTask tid) { s with pendingUpdate := some tid, nextTaskId := tid + 1 }

/-- `Picker::refresh` (lines 337-340). -/
def refresh (s : PickerState) : PickerState :=
  update_matches s (query s)

/-- `Picker::confirm` (lines 277-288).  `finalizeOk` is the value returned by
the delegate's `finalize_update_matches`; it is consulted (and the delegate
hook invoked) only when a pending update exists, mirroring the `&&`
short-circuit in the source. -/
def confirm (s : PickerState) (finalizeOk : Bool) : PickerState :=
  match s.pendingUpdate with
  | some k =>
    let s := emit (.delegateFinalize (query s) 16) s
    if finalizeOk then
      let s := emit (.dropPendingTask k) { s with pendingUpdate := none }
      emit (.delegateConfirm false) s
    else
      { s with confirmOnUpdate := some false }
  | none => emit (.delegateConfirm false) s

/-- `Picker::secondary_confirm` (lines 290-300).  Unlike `confirm`, the
source does not `take()` the pending update in the else branch. -/
def secondary_confirm (s : PickerState) (finalizeOk : Bool) : PickerState :=
  match s.pendingUpdate with
  | some _ =>
    let s := emit (.delegateFinalize (query s) 16) s
    if finalizeOk then
      emit (.delegateConfirm true) s
    else
      { s with confirmOnUpdate := some true }
  | none => emit (.delegateConfirm true) s

/-- Completion of the supervising task with id `tid` (the async block at
lines 354-367): the delegate's computation has produced the new delegate
state `d`, and the task then runs `matches_updated`.  Dropping a task cancels
it, so a task whose id is no longer the current `pendingUpdate` never runs:
for such ids this is a no-op. -/
def complete_pending (s : PickerState) (tid : Nat) (d : DelegateState) : PickerState :=
  if s.pendingUpdate = some tid then
    matches_updated { s with delegate := d }
  else s

/-- Body of the click listener installed by `Picker::render_search_buttons`
(lines 463-467): toggle the option, notify, re-run `update_matches` with the
current query text. -/
def toggle_include_ignored_click (s : PickerState) : PickerState :=
  let s := emit .delegateToggleIncludeIgnored
    { s with delegate := { s.delegate with includeIgnored := !s.delegate.includeIgnored } }
  let s := emit .notify s
  update_matches s (query s)

/-- `Picker::render_search_buttons` (lines 455-472): the include-ignored
button (with its click listener) exists exactly when the delegate supports
the option. -/
def render_search_buttons (s : PickerState) : List (PickerState → PickerState) :=
  if s.delegate.supportedIncludeIgnored then [toggle_include_ignored_click] else []

/-- `Picker::new` (lines 158-174): initial state, one `update_matches("")`,
then a 4 ms construction-time `finalize_update_matches` grace call. -/
def picker_new (d : DelegateState) (container : ContainerKind) : PickerState :=
  let s : PickerState :=
    { delegate := d
      container := container
      listItemCount := 0
      pendingUpdate := none
      confirmOnUpdate := none
      nextTaskId := 0
      queryText := ""
      events := [] }
  let s := update_matches s ""
  emit (.delegateFinalize "" 4) s

/-- The actions the environment can take on a picker: the user-facing
operations plus completion of a supervising task (`completeAct tid d` carries
the delegate state produced by the delegate's computation). -/
inductive PickerAction where
  | updateMatchesAct (q : String)
  | refreshAct
  | confirmAct (finalizeOk : Bool)
  | secondaryConfirmAct (finalizeOk : Bool)
  | completeAct (tid : Nat) (d : DelegateState)
  | selectNextAct
  | selectPrevAct
  | selectFirstAct
  | selectLastAct
  | cycleAct
  | toggleAct
  deriving DecidableEq, Repr

/-- One step of the picker state machine. -/
def step (a : PickerAction) (s : PickerState) : PickerState :=
  match a with
  | .updateMatchesAct q => update_matches s q
  | .refreshAct => refresh s
  | .confirmAct fo => confirm s fo
  | .secondaryConfirmAct fo => secondary_confirm s fo
  | .completeAct tid d => complete_pending s tid d
  | .selectNextAct => select_next s
  | .selectPrevAct => select_prev s
  | .selectFirstAct => select_first s
  | .selectLastAct => select_last s
  | .cycleAct => cycle_selection s
  | .toggleAct =>
      if s.delegate.supportedIncludeIgnored then toggle_include_ignored_click s else s

/-- Run a list of actions in order. -/
def run (acts : List PickerAction) (s : PickerState) : PickerState :=
  acts.foldl (fun t a => step a t) s

/-- The events a transition from `s` to `s'` appended to the trace. -/
def newEvents (s s' : PickerState) : List PickerEvent :=
  s'.events.drop s.events.length

/-- Is this event a `delegate.confirm` call? -/
def isConfirmEvent : PickerEvent → Bool
  | .delegateConfirm _ => true
  | _ => false

/-- Number of `delegate.confirm` calls in a trace fragment. -/
def countConfirm (l : List PickerEvent) : Nat :=
  (l.filter isConfirmEvent).length

/-- `occursBefore l a b`: both `a` and `b` occur in `l` and the first
occurrence of `a` precedes the first occurrence of `b`. -/
def occursBefore (l : List PickerEvent) (a b : PickerEvent) : Bool :=
  match l.findIdx? (fun x => x == a), l.findIdx? (fun x => x == b) with
  | some i, some j => i < j
  | _, _ => false

@[simp] theorem emit_delegate (e : PickerEvent) (s : PickerState) :
    (emit e s).delegate = s.delegate := rfl

@[simp] theorem emit_container (e : PickerEvent) (s : PickerState) :
    (emit e s).container = s.container := rfl

@[simp] theorem emit_pendingUpdate (e : PickerEvent) (s : PickerState) :
    (emit e s).pendingUpdate = s.pendingUpdate := rfl

@[simp] theorem emit_confirmOnUpdate (e : PickerEvent) (s : PickerState) :
    (emit e s).confirmOnUpdate = s.confirmOnUpdate := rfl

@[simp] theorem emit_nextTaskId (e : PickerEvent) (s : PickerState) :
    (emit e s).nextTaskId = s.nextTaskId := rfl

@[simp] theorem emit_queryText (e : PickerEvent) (s : PickerState) :
    (emit e s).queryText = s.queryText := rfl

@[simp] theorem emit_events (e : PickerEvent) (s : PickerState) :
    (emit e s).events = s.events ++ [e] := rfl

/-- The trace fragment a `matches_updated` pass appends, as a function of the
pre-state. -/
def matchesUpdatedEvents (s : PickerState) : List PickerEvent :=
  (match s.container with
   | ContainerKind.List => [PickerEvent.listReset s.delegate.matchCount]
   | ContainerKind.UniformList => []) ++
  [PickerEvent.scrollToItem s.delegate.selectedIndex] ++
  (match s.pendingUpdate with
   | some k => [PickerEvent.dropPendingTask k]
   | none => []) ++
  (match s.confirmOnUpdate with
   | some b => [PickerEvent.delegateConfirm b]
   | none => []) ++
  [PickerEvent.notify]

theorem matches_updated_events (s : PickerState) :
    (matches_updated s).events = s.events ++ matchesUpdatedEvents s := by
  rcases hcont : s.container <;> rcases hp : s.pendingUpdate <;>
    rcases hc : s.confirmOnUpdate <;>
    simp [matches_updated, matchesUpdatedEvents, scroll_to_item_index, hcont, hp, hc]

theorem matches_updated_delegate (s : PickerState) :
    (matches_updated s).delegate = s.delegate := by
  rcases hcont : s.container <;> rcases hp : s.pendingUpdate <;>
    rcases hc : s.confirmOnUpdate <;>
    simp [matches_updated, scroll_to_item_index, hcont, hp, hc]

theorem matches_updated_pendingUpdate (s : PickerState) :
    (matches_updated s).pendingUpdate = none := by
  rcases hcont : s.container <;> rcases hp : s.pendingUpdate <;>
    rcases hc : s.confirmOnUpdate <;>
    simp [matches_updated, scroll_to_item_index, hcont, hp, hc]

theorem matches_updated_confirmOnUpdate (s : PickerState) :
    (matches_updated s).confirmOnUpdate = none := by
  rcases hcont : s.container <;> rcases hp : s.pendingUpdate <;>
    rcases hc : s.confirmOnUpdate <;>
    simp [matches_updated, scroll_to_item_index, hcont, hp, hc]

theorem matches_updated_nextTaskId (s : PickerState) :
    (matches_updated s).nextTaskId = s.nextTaskId := by
  rcases hcont : s.container <;> rcases hp : s.pendingUpdate <;>
    rcases hc : s.confirmOnUpdate <;>
    simp [matches_updated, scroll_to_item_index, hcont, hp, hc]

theorem matches_updated_queryText (s : PickerState) :
    (matches_updated s).queryText = s.queryText := by
  rcases hcont : s.container <;> rcases hp : s.pendingUpdate <;>
    rcases hc : s.confirmOnUpdate <;>
    simp [matches_updated, scroll_to_item_index, hcont, hp, hc]

theorem matches_updated_container (s : PickerState) :
    (matches_updated s).container = s.container := by
  rcases hcont : s.container <;> rcases hp : s.pendingUpdate <;>
    rcases hc : s.confirmOnUpdate <;>
    simp [matches_updated, scroll_to_item_index, hcont, hp, hc]

/-- The trace fragment one `update_matches` call appends: the delegate call
first, then the synchronous `matches_updated` pass (which drops any previous
pending update), then the spawn of the new supervising task. -/
def updateMatchesEvents (s : PickerState) (q : String) : List PickerEvent :=
  [PickerEvent.delegateUpdateMatches q] ++ matchesUpdatedEvents s ++
    [PickerEvent.spawnPendingTask s.nextTaskId]

theorem matchesUpdatedEvents_emit (e : PickerEvent) (s : PickerState) :
    matchesUpdatedEvents (emit e s) = matchesUpdatedEvents s := by
  simp [matchesUpdatedEvents]

theorem update_matches_events (s : PickerState) (q : String) :
    (update_matches s q).events = s.events ++ updateMatchesEvents s q := by
  simp only [update_matches, emit_events]
  rw [matches_updated_events, matches_updated_nextTaskId, matchesUpdatedEvents_emit]
  simp [updateMatchesEvents]

theorem update_matches_delegate (s : PickerState) (q : String) :
    (update_matches s q).delegate = s.delegate := by
  simp only [update_matches, emit_delegate]
  rw [matches_updated_delegate, emit_delegate]

theorem update_matches_pendingUpdate (s : PickerState) (q : String) :
    (update_matches s q).pendingUpdate = some s.nextTaskId := by
  simp only [update_matches, emit_pendingUpdate]
  rw [matches_updated_nextTaskId, emit_nextTaskId]

theorem update_matches_confirmOnUpdate (s : PickerState) (q : String) :
    (update_matches s q).confirmOnUpdate = none := by
  simp only [update_matches, emit_confirmOnUpdate]
  rw [matches_updated_confirmOnUpdate]

theorem update_matches_nextTaskId (s : PickerState) (q : String) :
    (update_matches s q).nextTaskId = s.nextTaskId + 1 := by
  simp only [update_matches, emit_nextTaskId]
  rw [matches_updated_nextTaskId, emit_nextTaskId]

theorem update_matches_queryText (s : PickerState) (q : String) :
    (update_matches s q).queryText = s.queryText := by
  simp only [update_matches, emit_queryText]
  rw [matches_updated_queryText, emit_queryText]

theorem update_matches_container (s : PickerState) (q : String) :
    (update_matches s q).container = s.container := by
  simp only [update_matches, emit_container]
  rw [matches_updated_container, emit_container]

theorem newEvents_eq (s s' : PickerState) (l : List PickerEvent)
    (h : s'.events = s.events ++ l) : newEvents s s' = l := by
  show s'.events.drop s.events.length = l
  rw [h]
  exact List.drop_left _ _

/-- A delegate holding three matches with the second selected, supporting the
include-ignored option. -/
def sampleDelegate : DelegateState :=
  { matchCount := 3, selectedIndex := 1, includeIgnored := false,
    supportedIncludeIgnored := true }

/-- A uniform-list picker with one outstanding pending update (task id 0). -/
def cState : PickerState :=
  { delegate := sampleDelegate, container := ContainerKind.UniformList,
    listItemCount := 0, pendingUpdate := some 0, confirmOnUpdate := none,
    nextTaskId := 1, queryText := "a", events := [] }

/-- An idle uniform-list picker (no pending update, fresh task counter). -/
def baseState : PickerState :=
  { delegate := { matchCount := 2, selectedIndex := 0, includeIgnored := false,
                  supportedIncludeIgnored := true }
    container := ContainerKind.UniformList, listItemCount := 0,
    pendingUpdate := none, confirmOnUpdate := none, nextTaskId := 0,
    queryText := "", events := [] }

/-- A list-container picker with an outstanding pending update. -/
def listState : PickerState :=
  { delegate := sampleDelegate, container := ContainerKind.List,
    listItemCount := 3, pendingUpdate := some 0, confirmOnUpdate := none,
    nextTaskId := 1, queryText := "ab", events := [] }

/-- Claim C1, counterexample: starting a new update while task 0 is pending
produces a trace in which the new `delegate.update_matches` call comes first
and the old pending update's supervising task is dropped only afterwards —
the drop does not precede the delegate call as the claim requires. -/
theorem update_matches_drop_order_counterexample :
    cState.pendingUpdate = some 0 ∧
    PickerEvent.dropPendingTask 0 ∈ newEvents cState (update_matches cState "ab") ∧
    PickerEvent.delegateUpdateMatches "ab" ∈ newEvents cState (update_matches cState "ab") ∧
    occursBefore (newEvents cState (update_matches cState "ab"))
      (PickerEvent.dropPendingTask 0) (PickerEvent.delegateUpdateMatches "ab") = false := by
  decide

/-- Claim C1 (amended): when a new match update is started while a
`PendingUpdateMatches` is outstanding, the new `delegate.update_matches` call
is made first; the outstanding pending update's supervising task is then
discarded synchronously within the same `update_matches` invocation — after
the delegate call but before the new supervising task is installed, so no
asynchronous completion can interleave. -/
theorem update_matches_discards_previous_pending (s : PickerState) (q : String)
    (k : Nat) (hk : s.pendingUpdate = some k) :
    newEvents s (update_matches s q) =
      [PickerEvent.delegateUpdateMatches q] ++
      (match s.container with
       | ContainerKind.List => [PickerEvent.listReset s.delegate.matchCount]
       | ContainerKind.UniformList => []) ++
      [PickerEvent.scrollToItem s.delegate.selectedIndex,
       PickerEvent.dropPendingTask k] ++
      (match s.confirmOnUpdate with
       | some b => [PickerEvent.delegateConfirm b]
       | none => []) ++
      [PickerEvent.notify, PickerEvent.spawnPendingTask s.nextTaskId] ∧
    (update_matches s q).pendingUpdate = some s.nextTaskId := by
  refine ⟨?_, update_matches_pendingUpdate s q⟩
  rw [newEvents_eq s _ _ (update_matches_events s q)]
  simp [updateMatchesEvents, matchesUpdatedEvents, hk]

/-- Claim C1, witness. -/
theorem update_matches_discards_previous_pending_witness :
    newEvents cState (update_matches cState "ab") =
      [PickerEvent.delegateUpdateMatches "ab",
       PickerEvent.scrollToItem 1,
       PickerEvent.dropPendingTask 0,
       PickerEvent.notify, PickerEvent.spawnPendingTask 1] ∧
    (update_matches cState "ab").pendingUpdate = some 1 := by
  have h := update_matches_discards_previous_pending cState "ab" 0 rfl
  simpa [cState, sampleDelegate] using h

theorem confirm_nextTaskId (s : PickerState) (fo : Bool) :
    (confirm s fo).nextTaskId = s.nextTaskId := by
  rcases hp : s.pendingUpdate <;> rcases fo <;> simp [confirm, hp]

theorem confirm_pendingUpdate (s : PickerState) (fo : Bool) :
    (confirm s fo).pendingUpdate = s.pendingUpdate ∨
      (confirm s fo).pendingUpdate = none := by
  rcases hp : s.pendingUpdate <;> rcases fo <;> simp [confirm, hp]

theorem secondary_confirm_nextTaskId (s : PickerState) (fo : Bool) :
    (secondary_confirm s fo).nextTaskId = s.nextTaskId := by
  rcases hp : s.pendingUpdate <;> rcases fo <;> simp [secondary_confirm, hp]

theorem secondary_confirm_pendingUpdate (s : PickerState) (fo : Bool) :
    (secondary_confirm s fo).pendingUpdate = s.pendingUpdate := by
  rcases hp : s.pendingUpdate <;> rcases fo <;> simp [secondary_confirm, hp]

theorem complete_pending_nextTaskId (s : PickerState) (tid : Nat) (d : DelegateState) :
    (complete_pending s tid d).nextTaskId = s.nextTaskId := by
  by_cases h : s.pendingUpdate = some tid
  · simp only [complete_pending, h, if_pos]
    rw [matches_updated_nextTaskId]
  · simp [complete_pending, h]

theorem complete_pending_pendingUpdate (s : PickerState) (tid : Nat) (d : DelegateState) :
    (complete_pending s tid d).pendingUpdate = s.pendingUpdate ∨
      (complete_pending s tid d).pendingUpdate = none := by
  by_cases h : s.pendingUpdate = some tid
  · right
    simp only [complete_pending, h, if_pos]
    rw [matches_updated_pendingUpdate]
  · left
    simp [complete_pending, h]

/-- A dropped (superseded) supervising task never runs: completion for a task
id that is not the current pending update changes nothing. -/
theorem complete_pending_stale (s : PickerState) (tid : Nat) (d : DelegateState)
    (h : s.pendingUpdate ≠ some tid) : complete_pending s tid d = s := by
  simp [complete_pending, h]

theorem select_next_pendingUpdate (s : PickerState) :
    (select_next s).pendingUpdate = s.pendingUpdate ∧
      (select_next s).nextTaskId = s.nextTaskId := by
  by_cases h : s.delegate.matchCount > 0 <;>
    simp [select_next, h, set_selected_index, scroll_to_item_index]

theorem select_prev_pendingUpdate (s : PickerState) :
    (select_prev s).pendingUpdate = s.pendingUpdate ∧
      (select_prev s).nextTaskId = s.nextTaskId := by
  by_cases h : s.delegate.matchCount > 0 <;>
    simp [select_prev, h, set_selected_index, scroll_to_item_index]

theorem select_first_pendingUpdate (s : PickerState) :
    (select_first s).pendingUpdate = s.pendingUpdate ∧
      (select_first s).nextTaskId = s.nextTaskId := by
  by_cases h : s.delegate.matchCount > 0 <;>
    simp [select_first, h, set_selected_index, scroll_to_item_index]

theorem select_last_pendingUpdate (s : PickerState) :
    (select_last s).pendingUpdate = s.pendingUpdate ∧
      (select_last s).nextTaskId = s.nextTaskId := by
  by_cases h : s.delegate.matchCount > 0 <;>
    simp [select_last, h, set_selected_index, scroll_to_item_index]

theorem cycle_selection_pendingUpdate (s : PickerState) :
    (cycle_selection s).pendingUpdate = s.pendingUpdate ∧
      (cycle_selection s).nextTaskId = s.nextTaskId := by
  simp [cycle_selection, set_selected_index, scroll_to_item_index]

theorem toggle_click_pendingUpdate (s : PickerState) :
    (toggle_include_ignored_click s).pendingUpdate = some s.nextTaskId ∧
      (toggle_include_ignored_click s).nextTaskId = s.nextTaskId + 1 := by
  constructor
  · simp only [toggle_include_ignored_click]
    rw [update_matches_pendingUpdate]
    simp
  · simp only [toggle_include_ignored_click]
    rw [update_matches_nextTaskId]
    simp

/-- Invariant of every reachable picker state: the current pending task id
(if any) was allocated below the fresh-id counter. -/
def PendingIdInv (s : PickerState) : Prop :=
  ∀ j, s.pendingUpdate = some j → j < s.nextTaskId

theorem picker_new_pendingUpdate (d : DelegateState) (container : ContainerKind) :
    (picker_new d container).pendingUpdate = some 0 ∧
      (picker_new d container).nextTaskId = 1 := by
  simp only [picker_new, emit_pendingUpdate, emit_nextTaskId]
  constructor
  · rw [update_matches_pendingUpdate]
  · rw [update_matches_nextTaskId]

theorem pendingIdInv_picker_new (d : DelegateState) (container : ContainerKind) :
    PendingIdInv (picker_new d container) := by
  intro j hj
  rw [(picker_new_pendingUpdate d container).1] at hj
  rw [(picker_new_pendingUpdate d container).2]
  have hj' := Option.some.inj hj
  omega

theorem pendingIdInv_update_matches (s : PickerState) (q : String) :
    PendingIdInv (update_matches s q) := by
  intro j hj
  rw [update_matches_pendingUpdate] at hj
  rw [update_matches_nextTaskId]
  have hj' := Option.some.inj hj
  omega

theorem pendingIdInv_step (a : PickerAction) (s : PickerState)
    (h : PendingIdInv s) : PendingIdInv (step a s) := by
  rcases a with q | _ | fo | fo | ⟨tid, d⟩ | _ | _ | _ | _ | _ | _
  · exact pendingIdInv_update_matches s q
  · exact pendingIdInv_update_matches s (query s)
  · intro j hj
    rw [step] at hj ⊢
    rw [confirm_nextTaskId]
    rcases confirm_pendingUpdate s fo with h' | h'
    · exact h j (h' ▸ hj)
    · rw [h'] at hj
      exact absurd hj (by simp)
  · intro j hj
    rw [step] at hj ⊢
    rw [secondary_confirm_nextTaskId]
    rw [secondary_confirm_pendingUpdate] at hj
    exact h j hj
  · intro j hj
    rw [step] at hj ⊢
    rw [complete_pending_nextTaskId]
    rcases complete_pending_pendingUpdate s tid d with h' | h'
    · exact h j (h' ▸ hj)
    · rw [h'] at hj
      exact absurd hj (by simp)
  · intro j hj
    rw [step] at hj ⊢
    rw [(select_next_pendingUpdate s).2]
    exact h j ((select_next_pendingUpdate s).1 ▸ hj)
  · intro j hj
    rw [step] at hj ⊢
    rw [(select_prev_pendingUpdate s).2]
    exact h j ((select_prev_pendingUpdate s).1 ▸ hj)
  · intro j hj
    rw [step] at hj ⊢
    rw [(select_first_pendingUpdate s).2]
    exact h j ((select_first_pendingUpdate s).1 ▸ hj)
  · intro j hj
    rw [step] at hj ⊢
    rw [(select_last_pendingUpdate s).2]
    exact h j ((select_last_pendingUpdate s).1 ▸ hj)
  · intro j hj
    rw [step] at hj ⊢
    rw [(cycle_selection_pendingUpdate s).2]
    exact h j ((cycle_selection_pendingUpdate s).1 ▸ hj)
  · by_cases hs : s.delegate.supportedIncludeIgnored
    · intro j hj
      rw [step] at hj ⊢
      simp only [hs, if_pos] at hj ⊢
      rw [(toggle_click_pendingUpdate s).1] at hj
      rw [(toggle_click_pendingUpdate s).2]
      have hj' := Option.some.inj hj
      omega
    · simpa [step, hs] using h

/-- Task id `k` has been superseded: it is strictly below the fresh-id
counter and is no longer the current pending update. -/
def Superseded (k : Nat) (s : PickerState) : Prop :=
  k < s.nextTaskId ∧ s.pendingUpdate ≠ some k

theorem superseded_update_matches (k : Nat) (s : PickerState) (q : String)
    (h : k < s.nextTaskId) : Superseded k (update_matches s q) := by
  refine ⟨?_, ?_⟩
  · rw [update_matches_nextTaskId]; omega
  · rw [update_matches_pendingUpdate]
    intro hcontra
    exact absurd (Option.some_injective _ hcontra).symm (Nat.ne_of_lt h)

theorem superseded_step (k : Nat) (a : PickerAction) (s : PickerState)
    (h : Superseded k s) : Superseded k (step a s) := by
  obtain ⟨h1, h2⟩ := h
  rcases a with q | _ | fo | fo | ⟨tid, d⟩ | _ | _ | _ | _ | _ | _
  · exact superseded_update_matches k s q h1
  · exact superseded_update_matches k s (query s) h1
  · refine ⟨by rw [step, confirm_nextTaskId]; exact h1, ?_⟩
    rcases confirm_pendingUpdate s fo with h' | h' <;> simp [step, h', h2]
  · refine ⟨by rw [step, secondary_confirm_nextTaskId]; exact h1, ?_⟩
    simp [step, secondary_confirm_pendingUpdate, h2]
  · refine ⟨by rw [step, complete_pending_nextTaskId]; exact h1, ?_⟩
    rcases complete_pending_pendingUpdate s tid d with h' | h' <;> simp [step, h', h2]
  · exact ⟨(select_next_pendingUpdate s).2 ▸ h1, (select_next_pendingUpdate s).1 ▸ h2⟩
  · exact ⟨(select_prev_pendingUpdate s).2 ▸ h1, (select_prev_pendingUpdate s).1 ▸ h2⟩
  · exact ⟨(select_first_pendingUpdate s).2 ▸ h1, (select_first_pendingUpdate s).1 ▸ h2⟩
  · exact ⟨(select_last_pendingUpdate s).2 ▸ h1, (select_last_pendingUpdate s).1 ▸ h2⟩
  · exact ⟨(cycle_selection_pendingUpdate s).2 ▸ h1, (cycle_selection_pendingUpdate s).1 ▸ h2⟩
  · by_cases hs : s.delegate.supportedIncludeIgnored
    · refine ⟨?_, ?_⟩
      · rw [step]
        simp only [hs, if_pos]
        rw [(toggle_click_pendingUpdate s).2]
        omega
      · rw [step]
        simp only [hs, if_pos]
        rw [(toggle_click_pendingUpdate s).1]
        intro hcontra
        exact absurd (Option.some_injective _ hcontra).symm (Nat.ne_of_lt h1)
    · simpa [step, hs] using ⟨h1, h2⟩

theorem superseded_run (k : Nat) (acts : List PickerAction) (s : PickerState)
    (h : Superseded k s) : Superseded k (run acts s) := by
  induction acts generalizing s with
  | nil => exact h
  | cons a as ih => exact ih (step a s) (superseded_step k a s h)

/-- Claim C2: at most one pending update is current at a time (the
`pendingUpdate` field is a single `Option` slot, freshly filled by each
`update_matches`), and once an update is superseded by a newer
`update_matches` call, its completion — no matter how many further actions
intervene or in what order completions actually arrive — never mutates any
picker state and emits no events; reconciliation only ever runs from the
completion of the task id that is still current. -/
theorem superseded_completion_no_effect (s : PickerState) (k : Nat) (q : String)
    (acts : List PickerAction) (hk : s.pendingUpdate = some k)
    (hkn : k < s.nextTaskId) :
    (run acts (update_matches s q)).pendingUpdate ≠ some k ∧
    (∀ d, step (PickerAction.completeAct k d) (run acts (update_matches s q)) =
      run acts (update_matches s q)) ∧
    (∀ tid d, (run acts (update_matches s q)).pendingUpdate ≠ some tid →
      step (PickerAction.completeAct tid d) (run acts (update_matches s q)) =
        run acts (update_matches s q)) := by
  have h := superseded_run k acts (update_matches s q)
    (superseded_update_matches k s q hkn)
  exact ⟨h.2, fun d => complete_pending_stale _ k d h.2,
    fun tid d hne => complete_pending_stale _ tid d hne⟩

/-- Claim C2, witness: the update pending as task 0 in `cState` is superseded
by a new `update_matches`; after a further confirm press and a navigation
action its completion is a no-op. -/
theorem superseded_completion_no_effect_witness :
    (run [PickerAction.confirmAct false, PickerAction.selectNextAct]
        (update_matches cState "x")).pendingUpdate ≠ some 0 ∧
    step (PickerAction.completeAct 0 sampleDelegate)
        (run [PickerAction.confirmAct false, PickerAction.selectNextAct]
          (update_matches cState "x")) =
      run [PickerAction.confirmAct false, PickerAction.selectNextAct]
        (update_matches cState "x") := by
  have h := superseded_completion_no_effect cState 0 "x"
    [PickerAction.confirmAct false, PickerAction.selectNextAct] rfl (by decide)
  exact ⟨h.1, h.2.1 sampleDelegate⟩

theorem countConfirm_matchesUpdatedEvents (s : PickerState) (b : Bool)
    (h : s.confirmOnUpdate = some b) :
    countConfirm (matchesUpdatedEvents s) = 1 ∧
      PickerEvent.delegateConfirm b ∈ matchesUpdatedEvents s := by
  rcases hcont : s.container <;> rcases hp : s.pendingUpdate <;>
    simp [matchesUpdatedEvents, countConfirm, isConfirmEvent, hcont, hp, h]

theorem countConfirm_matchesUpdatedEvents_none (s : PickerState)
    (h : s.confirmOnUpdate = none) :
    countConfirm (matchesUpdatedEvents s) = 0 := by
  rcases hcont : s.container <;> rcases hp : s.pendingUpdate <;>
    simp [matchesUpdatedEvents, countConfirm, isConfirmEvent, hcont, hp, h]

/-- When the current pending update completes while a deferred confirm is
recorded, the reconciliation pass fires `delegate.confirm` exactly once, with
the recorded flag, and clears the flag. -/
theorem completion_fires_recorded_confirm (s₁ : PickerState) (k : Nat) (b : Bool)
    (d : DelegateState) (hp : s₁.pendingUpdate = some k)
    (hcf : s₁.confirmOnUpdate = some b) :
    countConfirm (newEvents s₁ (complete_pending s₁ k d)) = 1 ∧
    PickerEvent.delegateConfirm b ∈ newEvents s₁ (complete_pending s₁ k d) ∧
    (complete_pending s₁ k d).confirmOnUpdate = none := by
  have he : complete_pending s₁ k d = matches_updated { s₁ with delegate := d } := by
    simp [complete_pending, hp]
  have hne : newEvents s₁ (complete_pending s₁ k d) =
      matchesUpdatedEvents { s₁ with delegate := d } := by
    rw [he]
    exact newEvents_eq _ _ _ (matches_updated_events _)
  have hcm := countConfirm_matchesUpdatedEvents { s₁ with delegate := d } b hcf
  refine ⟨?_, ?_, ?_⟩
  · rw [hne]; exact hcm.1
  · rw [hne]; exact hcm.2
  · rw [he]; exact matches_updated_confirmOnUpdate _

/-- Claim C3: if confirm (primary or secondary) is pressed while a pending
update exists and `finalize_update_matches` returns false, `delegate.confirm`
is not called at that moment (only the finalize hook runs); the press records
the requested flag, and when the pending update completes `delegate.confirm`
fires exactly once, with that same flag. -/
theorem confirm_defers_until_completion (s : PickerState) (k : Nat)
    (d : DelegateState) (hk : s.pendingUpdate = some k)
    (hc : s.confirmOnUpdate = none) :
    countConfirm (newEvents s (confirm s false)) = 0 ∧
    (confirm s false).pendingUpdate = some k ∧
    (confirm s false).confirmOnUpdate = some false ∧
    countConfirm (newEvents (confirm s false)
      (complete_pending (confirm s false) k d)) = 1 ∧
    PickerEvent.delegateConfirm false ∈
      newEvents (confirm s false) (complete_pending (confirm s false) k d) ∧
    (complete_pending (confirm s false) k d).confirmOnUpdate = none ∧
    countConfirm (newEvents s (secondary_confirm s false)) = 0 ∧
    (secondary_confirm s false).pendingUpdate = some k ∧
    (secondary_confirm s false).confirmOnUpdate = some true ∧
    countConfirm (newEvents (secondary_confirm s false)
      (complete_pending (secondary_confirm s false) k d)) = 1 ∧
    PickerEvent.delegateConfirm true ∈
      newEvents (secondary_confirm s false) (complete_pending (secondary_confirm s false) k d) ∧
    (complete_pending (secondary_confirm s false) k d).confirmOnUpdate = none := by
  have h1 : confirm s false =
      { emit (.delegateFinalize (query s) 16) s with confirmOnUpdate := some false } := by
    simp [confirm, hk]
  have hp1 : (confirm s false).pendingUpdate = some k := by rw [h1]; exact hk
  have hc1 : (confirm s false).confirmOnUpdate = some false := by rw [h1]
  have hev1 : newEvents s (confirm s false) = [.delegateFinalize (query s) 16] := by
    apply newEvents_eq
    rw [h1]
    rfl
  obtain ⟨k1, k2, k3⟩ := completion_fires_recorded_confirm (confirm s false) k false d hp1 hc1
  have h2 : secondary_confirm s false =
      { emit (.delegateFinalize (query s) 16) s with confirmOnUpdate := some true } := by
    simp [secondary_confirm, hk]
  have hp2 : (secondary_confirm s false).pendingUpdate = some k := by rw [h2]; exact hk
  have hc2 : (secondary_confirm s false).confirmOnUpdate = some true := by rw [h2]
  have hev2 : newEvents s (secondary_confirm s false) = [.delegateFinalize (query s) 16] := by
    apply newEvents_eq
    rw [h2]
    rfl
  obtain ⟨m1, m2, m3⟩ :=
    completion_fires_recorded_confirm (secondary_confirm s false) k true d hp2 hc2
  exact ⟨by rw [hev1]; rfl, hp1, hc1, k1, k2, k3,
    by rw [hev2]; rfl, hp2, hc2, m1, m2, m3⟩

/-- Claim C3, witness: confirm presses on `cState` (pending task 0, finalize
fails) defer, then fire exactly once on completion. -/
theorem confirm_defers_until_completion_witness :
    countConfirm (newEvents cState (confirm cState false)) = 0 ∧
    (confirm cState false).pendingUpdate = some 0 ∧
    (confirm cState false).confirmOnUpdate = some false ∧
    countConfirm (newEvents (confirm cState false)
      (complete_pending (confirm cState false) 0 sampleDelegate)) = 1 ∧
    PickerEvent.delegateConfirm false ∈
      newEvents (confirm cState false) (complete_pending (confirm cState false) 0 sampleDelegate) ∧
    (complete_pending (confirm cState false) 0 sampleDelegate).confirmOnUpdate = none ∧
    countConfirm (newEvents cState (secondary_confirm cState false)) = 0 ∧
    (secondary_confirm cState false).pendingUpdate = some 0 ∧
    (secondary_confirm cState false).confirmOnUpdate = some true ∧
    countConfirm (newEvents (secondary_confirm cState false)
      (complete_pending (secondary_confirm cState false) 0 sampleDelegate)) = 1 ∧
    PickerEvent.delegateConfirm true ∈
      newEvents (secondary_confirm cState false)
        (complete_pending (secondary_confirm cState false) 0 sampleDelegate) ∧
    (complete_pending (secondary_confirm cState false) 0 sampleDelegate).confirmOnUpdate = none :=
  confirm_defers_until_completion cState 0 sampleDelegate rfl rfl

/-- Claim C4, counterexample: a secondary confirm pressed while task 0 is
pending, with `finalize_update_matches` returning true, calls
`delegate.confirm(true)` immediately but does NOT drop the pending update —
`pending_update_matches` is still `Some` afterwards, contradicting the claim
that the PendingUpdate is dropped for both confirm kinds. -/
theorem secondary_confirm_keeps_pending_counterexample :
    cState.pendingUpdate = some 0 ∧
    PickerEvent.delegateConfirm true ∈ newEvents cState (secondary_confirm cState true) ∧
    (secondary_confirm cState true).pendingUpdate ≠ none := by
  decide

/-- Claim C4 (amended): with a pending update and `finalize_update_matches`
returning true, `delegate.confirm` fires immediately with the requested flag
for both confirm kinds, and no second confirm can come from the update's
natural completion; however only primary confirm drops the PendingUpdate —
secondary confirm leaves it in place (its completion then runs a
reconciliation pass, but emits no confirm since no deferred confirm was
recorded). -/
theorem finalize_short_circuit_no_double_confirm (s : PickerState) (k : Nat)
    (d : DelegateState) (hk : s.pendingUpdate = some k)
    (hc : s.confirmOnUpdate = none) :
    newEvents s (confirm s true) =
      [.delegateFinalize (query s) 16, .dropPendingTask k, .delegateConfirm false] ∧
    (confirm s true).pendingUpdate = none ∧
    complete_pending (confirm s true) k d = confirm s true ∧
    newEvents s (secondary_confirm s true) =
      [.delegateFinalize (query s) 16, .delegateConfirm true] ∧
    (secondary_confirm s true).pendingUpdate = some k ∧
    countConfirm (newEvents (secondary_confirm s true)
      (complete_pending (secondary_confirm s true) k d)) = 0 := by
  have h1 : confirm s true =
      emit (.delegateConfirm false) (emit (.dropPendingTask k)
        { emit (.delegateFinalize (query s) 16) s with pendingUpdate := none }) := by
    simp [confirm, hk]
  have h2 : secondary_confirm s true =
      emit (.delegateConfirm true) (emit (.delegateFinalize (query s) 16) s) := by
    simp [secondary_confirm, hk]
  have hp1 : (confirm s true).pendingUpdate = none := by rw [h1]; rfl
  have hp2 : (secondary_confirm s true).pendingUpdate = some k := by rw [h2]; exact hk
  have hc2 : (secondary_confirm s true).confirmOnUpdate = none := by rw [h2]; exact hc
  refine ⟨?_, hp1, ?_, ?_, hp2, ?_⟩
  · apply newEvents_eq
    rw [h1]
    simp [emit]
  · exact complete_pending_stale _ k d (by rw [hp1]; exact fun h => Option.noConfusion h)
  · apply newEvents_eq
    rw [h2]
    simp [emit]
  · have he : complete_pending (secondary_confirm s true) k d =
        matches_updated { secondary_confirm s true with delegate := d } := by
      simp [complete_pending, hp2]
    have hne : newEvents (secondary_confirm s true)
        (complete_pending (secondary_confirm s true) k d) =
        matchesUpdatedEvents { secondary_confirm s true with delegate := d } := by
      rw [he]
      exact newEvents_eq _ _ _ (matches_updated_events _)
    rw [hne]
    exact countConfirm_matchesUpdatedEvents_none _ hc2

/-- Claim C4, witness. -/
theorem finalize_short_circuit_no_double_confirm_witness :
    newEvents cState (confirm cState true) =
      [.delegateFinalize "a" 16, .dropPendingTask 0, .delegateConfirm false] ∧
    (confirm cState true).pendingUpdate = none ∧
    complete_pending (confirm cState true) 0 sampleDelegate = confirm cState true ∧
    newEvents cState (secondary_confirm cState true) =
      [.delegateFinalize "a" 16, .delegateConfirm true] ∧
    (secondary_confirm cState true).pendingUpdate = some 0 ∧
    countConfirm (newEvents (secondary_confirm cState true)
      (complete_pending (secondary_confirm cState true) 0 sampleDelegate)) = 0 := by
  have h := finalize_short_circuit_no_double_confirm cState 0 sampleDelegate rfl rfl
  simpa [cState, query] using h

/-- The picker state after: an idle picker starts an update for query "a"
(task 0), then the user presses secondary confirm and the delegate cannot
finalize in time, recording the deferred-confirm flag. -/
def earlyState : PickerState :=
  secondary_confirm (update_matches baseState "a") false

/-- `earlyState` after a second `update_matches` (query "b") — issued before
task 0 ever completes. -/
def earlyStateB : PickerState :=
  update_matches earlyState "b"

/-- Claim C5, counterexample: the deferred-confirm flag recorded while task 0
was pending is consumed — and `delegate.confirm(true)` fired — by the
synchronous pass of a *new* `update_matches` call, which cancels task 0
rather than completing it; consumption does not happen at the moment the
pending update completes, since that update never completes at all. -/
theorem confirm_on_update_early_consumption_counterexample :
    earlyState.confirmOnUpdate = some true ∧
    earlyState.pendingUpdate = some 0 ∧
    earlyStateB.confirmOnUpdate = none ∧
    PickerEvent.delegateConfirm true ∈ newEvents earlyState earlyStateB ∧
    PickerEvent.dropPendingTask 0 ∈ newEvents earlyState earlyStateB := by
  decide

/-- Claim C5 (amended): the `confirm_on_update` flag is only ever assigned
while a pending update is outstanding (a confirm press with no pending update
leaves it untouched), and it is consumed — firing `delegate.confirm` exactly
once with the recorded flag — by the next `matches_updated` pass, which runs
either when the current pending update completes or synchronously at the
start of a new `update_matches` call; consumption is therefore not tied to
the completion of the update during which the flag was recorded. -/
theorem confirm_on_update_lifecycle (s : PickerState) (b fo : Bool) (q : String)
    (k : Nat) (d : DelegateState) :
    (s.pendingUpdate = none →
      (confirm s fo).confirmOnUpdate = s.confirmOnUpdate ∧
      (secondary_confirm s fo).confirmOnUpdate = s.confirmOnUpdate) ∧
    (s.confirmOnUpdate = some b →
      (matches_updated s).confirmOnUpdate = none ∧
      countConfirm (newEvents s (matches_updated s)) = 1 ∧
      PickerEvent.delegateConfirm b ∈ newEvents s (matches_updated s)) ∧
    (s.confirmOnUpdate = some b →
      (update_matches s q).confirmOnUpdate = none ∧
      PickerEvent.delegateConfirm b ∈ newEvents s (update_matches s q)) ∧
    (s.confirmOnUpdate = some b → s.pendingUpdate = some k →
      countConfirm (newEvents s (complete_pending s k d)) = 1 ∧
      PickerEvent.delegateConfirm b ∈ newEvents s (complete_pending s k d) ∧
      (complete_pending s k d).confirmOnUpdate = none) := by
  refine ⟨?_, ?_, ?_, ?_⟩
  · intro hp
    constructor
    · have : confirm s fo = emit (.delegateConfirm false) s := by simp [confirm, hp]
      rw [this]; rfl
    · have : secondary_confirm s fo = emit (.delegateConfirm true) s := by
        simp [secondary_confirm, hp]
      rw [this]; rfl
  · intro hb
    have hne : newEvents s (matches_updated s) = matchesUpdatedEvents s :=
      newEvents_eq _ _ _ (matches_updated_events s)
    have hcm := countConfirm_matchesUpdatedEvents s b hb
    exact ⟨matches_updated_confirmOnUpdate s, by rw [hne]; exact hcm.1,
      by rw [hne]; exact hcm.2⟩
  · intro hb
    have hne : newEvents s (update_matches s q) = updateMatchesEvents s q :=
      newEvents_eq _ _ _ (update_matches_events s q)
    have hcm := countConfirm_matchesUpdatedEvents s b hb
    refine ⟨update_matches_confirmOnUpdate s q, ?_⟩
    rw [hne]
    simp only [updateMatchesEvents, List.mem_append]
    exact Or.inl (Or.inr hcm.2)
  · intro hb hp
    exact completion_fires_recorded_confirm s k b d hp hb

/-- Claim C5, witness: the consumption clause applied at `earlyState`, whose
flag records a deferred secondary confirm. -/
theorem confirm_on_update_lifecycle_witness :
    (matches_updated earlyState).confirmOnUpdate = none ∧
    countConfirm (newEvents earlyState (matches_updated earlyState)) = 1 ∧
    PickerEvent.delegateConfirm true ∈ newEvents earlyState (matches_updated earlyState) :=
  (confirm_on_update_lifecycle earlyState true false "z" 0 sampleDelegate).2.1 (by decide)

theorem nav_apply (s : PickerState) (ix : Nat) :
    newEvents s (emit .notify (scroll_to_item_index (set_selected_index s ix) ix)) =
      [.setSelectedIndex ix, .scrollToItem ix, .notify] ∧
    (emit .notify (scroll_to_item_index (set_selected_index s ix) ix)).delegate.selectedIndex = ix := by
  constructor
  · apply newEvents_eq
    simp [set_selected_index, scroll_to_item_index]
  · rfl

theorem select_next_pos (s : PickerState) (h : 0 < s.delegate.matchCount) :
    select_next s = emit .notify (scroll_to_item_index (set_selected_index s
      (if s.delegate.selectedIndex = s.delegate.matchCount - 1 then 0
       else s.delegate.selectedIndex + 1))
      (if s.delegate.selectedIndex = s.delegate.matchCount - 1 then 0
       else s.delegate.selectedIndex + 1)) := by
  simp [select_next, h]

theorem select_prev_pos (s : PickerState) (h : 0 < s.delegate.matchCount) :
    select_prev s = emit .notify (scroll_to_item_index (set_selected_index s
      (if s.delegate.selectedIndex = 0 then s.delegate.matchCount - 1
       else s.delegate.selectedIndex - 1))
      (if s.delegate.selectedIndex = 0 then s.delegate.matchCount - 1
       else s.delegate.selectedIndex - 1)) := by
  simp [select_prev, h]

theorem select_first_pos (s : PickerState) (h : 0 < s.delegate.matchCount) :
    select_first s = emit .notify (scroll_to_item_index (set_selected_index s 0) 0) := by
  simp [select_first, h]

theorem select_last_pos (s : PickerState) (h : 0 < s.delegate.matchCount) :
    select_last s = emit .notify (scroll_to_item_index
      (set_selected_index s (s.delegate.matchCount - 1)) (s.delegate.matchCount - 1)) := by
  simp [select_last, h]

/-- Claim C6: with `match_count() = 0`, all four navigation operations change
no state at all (no `set_selected_index`, no scroll request, no notify); with
`match_count() = n > 0` and a valid starting index, each operation passes an
index `ix < n` to `set_selected_index` (followed by the scroll request and
notify) and leaves the selection at that in-bounds index. -/
theorem navigation_bounds_and_empty_noop (s : PickerState) (n : Nat)
    (hn : s.delegate.matchCount = n) :
    (n = 0 → select_next s = s ∧ select_prev s = s ∧
      select_first s = s ∧ select_last s = s) ∧
    (0 < n → s.delegate.selectedIndex < n →
      (∃ ix, ix < n ∧
        newEvents s (select_next s) = [.setSelectedIndex ix, .scrollToItem ix, .notify] ∧
        (select_next s).delegate.selectedIndex = ix) ∧
      (∃ ix, ix < n ∧
        newEvents s (select_prev s) = [.setSelectedIndex ix, .scrollToItem ix, .notify] ∧
        (select_prev s).delegate.selectedIndex = ix) ∧
      (0 < n ∧
        newEvents s (select_first s) = [.setSelectedIndex 0, .scrollToItem 0, .notify] ∧
        (select_first s).delegate.selectedIndex = 0) ∧
      (n - 1 < n ∧
        newEvents s (select_last s) =
          [.setSelectedIndex (n - 1), .scrollToItem (n - 1), .notify] ∧
        (select_last s).delegate.selectedIndex = n - 1)) := by
  constructor
  · intro h0
    rw [h0] at hn
    refine ⟨?_, ?_, ?_, ?_⟩ <;> simp [select_next, select_prev, select_first, select_last, hn]
  · intro hpos hix
    have hgt : 0 < s.delegate.matchCount := hn ▸ hpos
    refine ⟨?_, ?_, ?_, ?_⟩
    · refine ⟨if s.delegate.selectedIndex = s.delegate.matchCount - 1 then 0
        else s.delegate.selectedIndex + 1, ?_, ?_, ?_⟩
      · split_ifs <;> omega
      · rw [select_next_pos s hgt, hn]
        exact (nav_apply s _).1
      · rw [select_next_pos s hgt]
        exact (nav_apply s _).2
    · refine ⟨if s.delegate.selectedIndex = 0 then s.delegate.matchCount - 1
        else s.delegate.selectedIndex - 1, ?_, ?_, ?_⟩
      · split_ifs <;> omega
      · rw [select_prev_pos s hgt, hn]
        exact (nav_apply s _).1
      · rw [select_prev_pos s hgt]
        exact (nav_apply s _).2
    · refine ⟨hpos, ?_, ?_⟩
      · rw [select_first_pos s hgt]
        exact (nav_apply s 0).1
      · rw [select_first_pos s hgt]
        exact (nav_apply s 0).2
    · refine ⟨by omega, ?_, ?_⟩
      · rw [select_last_pos s hgt, hn]
        exact hn ▸ (nav_apply s _).1
      · rw [select_last_pos s hgt]
        exact hn ▸ (nav_apply s _).2

/-- Claim C6, witness. -/
theorem navigation_bounds_and_empty_noop_witness :
    (3 = 0 → select_next cState = cState ∧ select_prev cState = cState ∧
      select_first cState = cState ∧ select_last cState = cState) ∧
    (0 < 3 → cState.delegate.selectedIndex < 3 →
      (∃ ix, ix < 3 ∧
        newEvents cState (select_next cState) =
          [.setSelectedIndex ix, .scrollToItem ix, .notify] ∧
        (select_next cState).delegate.selectedIndex = ix) ∧
      (∃ ix, ix < 3 ∧
        newEvents cState (select_prev cState) =
          [.setSelectedIndex ix, .scrollToItem ix, .notify] ∧
        (select_prev cState).delegate.selectedIndex = ix) ∧
      (0 < 3 ∧
        newEvents cState (select_first cState) =
          [.setSelectedIndex 0, .scrollToItem 0, .notify] ∧
        (select_first cState).delegate.selectedIndex = 0) ∧
      (3 - 1 < 3 ∧
        newEvents cState (select_last cState) =
          [.setSelectedIndex (3 - 1), .scrollToItem (3 - 1), .notify] ∧
        (select_last cState).delegate.selectedIndex = 3 - 1)) :=
  navigation_bounds_and_empty_noop cState 3 rfl

/-- A picker whose delegate currently reports zero matches. -/
def emptyState : PickerState :=
  { delegate := { matchCount := 0, selectedIndex := 0, includeIgnored := false,
                  supportedIncludeIgnored := false }
    container := ContainerKind.UniformList, listItemCount := 0,
    pendingUpdate := none, confirmOnUpdate := none, nextTaskId := 0,
    queryText := "", events := [] }

/-- Claim C7, counterexample: with `match_count() = 0` (and selected index
0), `cycle_selection` is not a no-op — it calls `set_selected_index(1)` (an
out-of-bounds index), requests a scroll and notifies, because the source has
no empty-match guard in `cycle_selection`. -/
theorem cycle_selection_empty_not_noop :
    emptyState.delegate.matchCount = 0 ∧
    cycle_selection emptyState ≠ emptyState ∧
    (cycle_selection emptyState).delegate.selectedIndex = 1 ∧
    newEvents emptyState (cycle_selection emptyState) =
      [.setSelectedIndex 1, .scrollToItem 1, .notify] := by
  decide

/-- Claim C7 (amended): `cycle_selection` does not special-case an empty
match set: unconditionally — even when `match_count() = 0` — it computes
`new_index` (advance by one, wrapping to 0 when `index + 1 = count`), calls
`set_selected_index`, requests scroll-into-view and notifies; when
`match_count() > 0` and the current index is valid, the new index is in
bounds and advances the selection by one with wraparound. -/
theorem cycle_selection_behavior (s : PickerState) :
    newEvents s (cycle_selection s) =
      [.setSelectedIndex (if s.delegate.selectedIndex + 1 = s.delegate.matchCount then 0
          else s.delegate.selectedIndex + 1),
       .scrollToItem (if s.delegate.selectedIndex + 1 = s.delegate.matchCount then 0
          else s.delegate.selectedIndex + 1),
       .notify] ∧
    (cycle_selection s).delegate.selectedIndex =
      (if s.delegate.selectedIndex + 1 = s.delegate.matchCount then 0
       else s.delegate.selectedIndex + 1) ∧
    (0 < s.delegate.matchCount → s.delegate.selectedIndex < s.delegate.matchCount →
      (if s.delegate.selectedIndex + 1 = s.delegate.matchCount then 0
       else s.delegate.selectedIndex + 1) < s.delegate.matchCount ∧
      ((s.delegate.selectedIndex + 1 = s.delegate.matchCount ∧
        (if s.delegate.selectedIndex + 1 = s.delegate.matchCount then 0
         else s.delegate.selectedIndex + 1) = 0) ∨
       (if s.delegate.selectedIndex + 1 = s.delegate.matchCount then 0
        else s.delegate.selectedIndex + 1) = s.delegate.selectedIndex + 1)) := by
  have he : cycle_selection s = emit .notify (scroll_to_item_index (set_selected_index s
      (if s.delegate.selectedIndex + 1 = s.delegate.matchCount then 0
       else s.delegate.selectedIndex + 1))
      (if s.delegate.selectedIndex + 1 = s.delegate.matchCount then 0
       else s.delegate.selectedIndex + 1)) := by
    simp [cycle_selection]
  refine ⟨?_, ?_, ?_⟩
  · rw [he]
    exact (nav_apply s _).1
  · rw [he]
    exact (nav_apply s _).2
  · intro hpos hix
    constructor
    · split_ifs <;> omega
    · split_ifs with h
      · exact Or.inl ⟨h, rfl⟩
      · exact Or.inr rfl

/-- Claim C7, witness: on `cState` (3 matches, index 1) cycling advances to
index 2 in bounds. -/
theorem cycle_selection_behavior_witness :
    newEvents cState (cycle_selection cState) =
      [.setSelectedIndex 2, .scrollToItem 2, .notify] ∧
    (cycle_selection cState).delegate.selectedIndex = 2 ∧
    (2 < cState.delegate.matchCount ∧
      ((cState.delegate.selectedIndex + 1 = cState.delegate.matchCount ∧ (2 : Nat) = 0) ∨
        (2 : Nat) = cState.delegate.selectedIndex + 1)) := by
  have h := cycle_selection_behavior cState
  exact ⟨h.1, h.2.1, h.2.2 (by decide) (by decide)⟩

/-- Claim C8: for `match_count = n > 1` and any valid selected index `i`,
`select_prev` after `select_next` returns the selection to `i`, and
`select_next` after `select_prev` returns the selection to `i`. -/
theorem select_next_prev_inverse (s : PickerState) (n i : Nat)
    (hn : s.delegate.matchCount = n) (hi : s.delegate.selectedIndex = i)
    (h1 : 1 < n) (h2 : i < n) :
    (select_prev (select_next s)).delegate.selectedIndex = i ∧
    (select_next (select_prev s)).delegate.selectedIndex = i := by
  have hgt : 0 < s.delegate.matchCount := by omega
  constructor
  · rw [select_next_pos s hgt]
    have hgt2 : 0 < (emit .notify (scroll_to_item_index (set_selected_index s
        (if s.delegate.selectedIndex = s.delegate.matchCount - 1 then 0
         else s.delegate.selectedIndex + 1))
        (if s.delegate.selectedIndex = s.delegate.matchCount - 1 then 0
         else s.delegate.selectedIndex + 1))).delegate.matchCount := hgt
    rw [select_prev_pos _ hgt2]
    show (if (if s.delegate.selectedIndex = s.delegate.matchCount - 1 then 0
      else s.delegate.selectedIndex + 1) = 0 then s.delegate.matchCount - 1
      else (if s.delegate.selectedIndex = s.delegate.matchCount - 1 then 0
      else s.delegate.selectedIndex + 1) - 1) = i
    rw [hn, hi]
    rcases eq_or_ne i (n - 1) with h | h
    · simp [h]
    · have h3 : ¬(i + 1 = 0) := by omega
      simp [h, h3]
  · rw [select_prev_pos s hgt]
    have hgt2 : 0 < (emit .notify (scroll_to_item_index (set_selected_index s
        (if s.delegate.selectedIndex = 0 then s.delegate.matchCount - 1
         else s.delegate.selectedIndex - 1))
        (if s.delegate.selectedIndex = 0 then s.delegate.matchCount - 1
         else s.delegate.selectedIndex - 1))).delegate.matchCount := hgt
    rw [select_next_pos _ hgt2]
    show (if (if s.delegate.selectedIndex = 0 then s.delegate.matchCount - 1
      else s.delegate.selectedIndex - 1) = s.delegate.matchCount - 1 then 0
      else (if s.delegate.selectedIndex = 0 then s.delegate.matchCount - 1
      else s.delegate.selectedIndex - 1) + 1) = i
    rw [hn, hi]
    rcases eq_or_ne i 0 with h | h
    · simp [h]
    · have h3 : ¬(i - 1 = n - 1) := by omega
      simp [h, h3]
      omega

/-- Claim C8, witness. -/
theorem select_next_prev_inverse_witness :
    (select_prev (select_next cState)).delegate.selectedIndex = 1 ∧
    (select_next (select_prev cState)).delegate.selectedIndex = 1 :=
  select_next_prev_inverse cState 3 1 rfl rfl (by decide) (by decide)

/-- Claim C9: when the delegate supports the include-ignored option, the
search-buttons row holds exactly the include-ignored toggle button; clicking
it invokes `delegate.toggle_include_ignored` (flipping the option) and then
re-runs the whole `update_matches` cycle with the query text unchanged —
the `delegate.update_matches` call receives exactly the query box text at
toggle time, and a fresh pending update is installed. -/
theorem toggle_rerequeries_same_query (s : PickerState)
    (hs : s.delegate.supportedIncludeIgnored = true) :
    render_search_buttons s = [toggle_include_ignored_click] ∧
    newEvents s (toggle_include_ignored_click s) =
      [.delegateToggleIncludeIgnored, .notify, .delegateUpdateMatches s.queryText] ++
        matchesUpdatedEvents s ++ [.spawnPendingTask s.nextTaskId] ∧
    (toggle_include_ignored_click s).queryText = s.queryText ∧
    (toggle_include_ignored_click s).delegate.includeIgnored = !s.delegate.includeIgnored ∧
    (toggle_include_ignored_click s).pendingUpdate = some s.nextTaskId := by
  refine ⟨by simp [render_search_buttons, hs], ?_, ?_, ?_, (toggle_click_pendingUpdate s).1⟩
  · apply newEvents_eq
    simp only [toggle_include_ignored_click]
    rw [update_matches_events]
    simp [updateMatchesEvents, matchesUpdatedEvents, query, emit]
  · simp only [toggle_include_ignored_click]
    rw [update_matches_queryText]
    rfl
  · simp only [toggle_include_ignored_click]
    rw [update_matches_delegate]
    rfl

/-- Claim C9, witness. -/
theorem toggle_rerequeries_same_query_witness :
    render_search_buttons listState = [toggle_include_ignored_click] ∧
    newEvents listState (toggle_include_ignored_click listState) =
      [.delegateToggleIncludeIgnored, .notify, .delegateUpdateMatches "ab",
       .listReset 3, .scrollToItem 1, .dropPendingTask 0, .notify,
       .spawnPendingTask 1] ∧
    (toggle_include_ignored_click listState).queryText = "ab" ∧
    (toggle_include_ignored_click listState).delegate.includeIgnored = true ∧
    (toggle_include_ignored_click listState).pendingUpdate = some 1 := by
  have h := toggle_rerequeries_same_query listState rfl
  simpa [listState, sampleDelegate, matchesUpdatedEvents] using h

/-- Claim C10: every `update_matches` call synchronously runs one
`matches_updated` pass — after the delegate call starts the new computation
but before it is awaited: it resets the `List` container's item count to the
delegate's current `match_count`, scrolls to the delegate's current selected
index, drops any previous pending update, fires a recorded deferred confirm
right then (against the pre-update delegate state, which the synchronous pass
leaves untouched), and notifies; a fresh pending update is then installed
whose completion runs `matches_updated` a second time. -/
theorem update_matches_synchronous_reconciliation (s : PickerState) (q : String)
    (d : DelegateState) (hc : s.container = ContainerKind.List) :
    newEvents s (update_matches s q) =
      [PickerEvent.delegateUpdateMatches q,
       PickerEvent.listReset s.delegate.matchCount,
       PickerEvent.scrollToItem s.delegate.selectedIndex] ++
      (match s.pendingUpdate with
       | some k => [PickerEvent.dropPendingTask k]
       | none => []) ++
      (match s.confirmOnUpdate with
       | some b => [PickerEvent.delegateConfirm b]
       | none => []) ++
      [PickerEvent.notify, PickerEvent.spawnPendingTask s.nextTaskId] ∧
    (update_matches s q).delegate = s.delegate ∧
    (update_matches s q).pendingUpdate = some s.nextTaskId ∧
    (update_matches s q).confirmOnUpdate = none ∧
    step (PickerAction.completeAct s.nextTaskId d) (update_matches s q) =
      matches_updated { update_matches s q with delegate := d } := by
  refine ⟨?_, update_matches_delegate s q, update_matches_pendingUpdate s q,
    update_matches_confirmOnUpdate s q, ?_⟩
  · rw [newEvents_eq s _ _ (update_matches_events s q)]
    simp [updateMatchesEvents, matchesUpdatedEvents, hc]
  · simp [step, complete_pending, update_matches_pendingUpdate]

/-- Claim C10, witness. -/
theorem update_matches_synchronous_reconciliation_witness :
    newEvents listState (update_matches listState "b") =
      [PickerEvent.delegateUpdateMatches "b",
       PickerEvent.listReset 3,
       PickerEvent.scrollToItem 1,
       PickerEvent.dropPendingTask 0,
       PickerEvent.notify, PickerEvent.spawnPendingTask 1] ∧
    (update_matches listState "b").delegate = listState.delegate ∧
    (update_matches listState "b").pendingUpdate = some 1 ∧
    (update_matches listState "b").confirmOnUpdate = none ∧
    step (PickerAction.completeAct 1 sampleDelegate) (update_matches listState "b") =
      matches_updated { update_matches listState "b" with delegate := sampleDelegate } := by
  have h := update_matches_synchronous_reconciliation listState "b" sampleDelegate rfl
  simpa [listState, sampleDelegate] using h

end Picker
